import Mathlib

/-!
Shallow embedding of the pyParamETL incremental replication script
(`main.py`): schema introspection over `information_schema.columns`,
the full-vs-delta load decision, batched streaming transfer with
per-batch commits, and the connection lifecycle of
`p_move_data_for_table` including its `except`/`finally` semantics.

SQL values are modelled as `Option Int` (`none` is SQL NULL), a stored
row as an association list from column name to value, and the two
databases plus failure oracles as an explicit `World` record.
-/

namespace PyETL

/-- A SQL value: `none` models SQL NULL; timestamps such as
`updated_date` are modelled by their integer ordinal. -/
abbrev Val := Option Int

/-- A stored row: finite map from column name to value, as an
association list.  A column absent from the list reads as NULL. -/
abbrev Row := List (String × Val)

/-- Reading a column of a row; missing columns read as SQL NULL. -/
def Row.getCol (r : Row) (c : String) : Val :=
  match r.find? (fun p => p.1 == c) with
  | some p => p.2
  | none => none

/-- One row of the PostgreSQL catalog view `information_schema.columns`:
the view holds one entry per (schema, table, column) of the connected
database, across all schemas. -/
structure CatalogRow where
  table_schema : String
  table_name : String
  column_name : String
  data_type : String
deriving Repr, DecidableEq

/-- `p_get_table_definition` (main.py lines 93-99): runs
`SELECT column_name, data_type FROM information_schema.columns WHERE
table_name = %s` and returns all matches.  The WHERE clause filters by
table name only — no `table_schema` qualifier — so every schema's
identically-named table contributes, in catalog order. -/
def p_get_table_definition (catalog : List CatalogRow) (i_table_name : String) :
    List (String × String) :=
  (catalog.filter (fun r => r.table_name == i_table_name)).map
    (fun r => (r.column_name, r.data_type))

/-- SQL `SELECT c1, ..., cn FROM ...` projection of one row: the tuple
of the row's values at the requested columns, in the requested order. -/
def selectCols (cols : List String) (r : Row) : List Val :=
  cols.map (fun c => Row.getCol r c)

/-- SQL `MAX(updated_date)` over a table: NULLs are ignored, and the
result is NULL exactly when no non-null `updated_date` value exists
(empty table, or column entirely null). -/
def maxUpdatedDate (rows : List Row) : Option Int :=
  (rows.filterMap (fun r => Row.getCol r "updated_date")).max?

/-- The predicate carried by the source SELECT built in
`p_move_data_for_table`: either none (full load, line 143) or
`updated_date > w` where `w` is the Python value interpolated into the
SQL string at line 152 — possibly Python `None`, rendered there as the
literal string None. -/
inductive LoadPred where
  | noPred : LoadPred
  | gtUpdatedDate : Option Int → LoadPred
deriving Repr, DecidableEq

/-- The source SELECT statement issued by `p_move_data_for_table`:
its projection list, the schema-qualified table, and its predicate. -/
structure SourceQuery where
  cols : List String
  schema : String
  table : String
  pred : LoadPred
deriving Repr, DecidableEq

/-- main.py lines 137-152: count rows of the target table; if the count
is 0 build the full-load source SELECT (no predicate, target columns
projected), otherwise query `MAX(updated_date)` from the target table
and build the delta source SELECT with predicate
`updated_date > watermark`. -/
def buildSourceQuery (targetRows : List Row) (l_target_columns : List String)
    (i_source_schema i_table_name : String) : SourceQuery :=
  if targetRows.length == 0 then
    ⟨l_target_columns, i_source_schema, i_table_name, LoadPred.noPred⟩
  else
    ⟨l_target_columns, i_source_schema, i_table_name,
      LoadPred.gtUpdatedDate (maxUpdatedDate targetRows)⟩

/-- Does a source row satisfy `updated_date > w`?  SQL three-valued
logic: a NULL `updated_date` never satisfies the comparison. -/
def rowPasses (w : Int) (r : Row) : Bool :=
  match Row.getCol r "updated_date" with
  | some d => decide (w < d)
  | none => false

/-- PostgreSQL evaluation of the built source SELECT.  An empty
projection list is a SQL syntax error (the script builds
`SELECT  FROM ...` when the target table has no catalog columns), and a
predicate interpolating Python `None` is a cast error (the literal
None is not a valid timestamp). -/
def runSourceQuery (sourceRows : List Row) (q : SourceQuery) :
    Except String (List (List Val)) :=
  if q.cols = [] then Except.error "syntax error: empty select list"
  else
    match q.pred with
    | LoadPred.noPred => Except.ok (sourceRows.map (selectCols q.cols))
    | LoadPred.gtUpdatedDate (some w) =>
        Except.ok ((sourceRows.filter (rowPasses w)).map (selectCols q.cols))
    | LoadPred.gtUpdatedDate none =>
        Except.error "invalid input syntax for timestamp: None"

/-- The successive non-empty batches that `fetchmany(size=bs)` yields
from a result stream: the first `bs` rows, then the next `bs`, and so
on; fetching stops at the first empty batch. -/
def chunksOf (bs : Nat) (l : List (List Val)) : List (List (List Val)) :=
  if l.take bs = [] then []
  else l.take bs :: chunksOf bs (l.drop bs)
termination_by l.length
decreasing_by
  rename_i h
  rw [List.take_eq_nil_iff] at h
  push_neg at h
  rw [List.length_drop]
  exact Nat.sub_lt (List.length_pos.mpr h.2) (Nat.pos_of_ne_zero h.1)

/-- The `while True` loop of main.py lines 154-162: fetch up to `bs`
rows; break on an empty fetch; otherwise `executemany` the batch and
`commit`, then fetch again.  `failAt = some k` is the failure oracle:
`executemany` raises on the batch with 0-based index `k`.  Returns the
list of committed batches in order, paired with `true` when the loop
ran to completion and `false` when an insert raised. -/
def transferLoop (failAt : Option Nat) (bs : Nat) (stream : List (List Val))
    (idx : Nat) : List (List (List Val)) × Bool :=
  if stream.take bs = [] then ([], true)
  else if failAt = some idx then ([], false)
  else
    let r := transferLoop failAt bs (stream.drop bs) (idx + 1)
    (stream.take bs :: r.1, r.2)
termination_by stream.length
decreasing_by
  rename_i h _
  rw [List.take_eq_nil_iff] at h
  push_neg at h
  rw [List.length_drop]
  exact Nat.sub_lt (List.length_pos.mpr h.2) (Nat.pos_of_ne_zero h.1)

theorem chunksOf_nil (bs : Nat) : chunksOf bs [] = [] := by
  rw [chunksOf]; simp

theorem chunksOf_eq (bs : Nat) (l : List (List Val)) (h : l.take bs ≠ []) :
    chunksOf bs l = l.take bs :: chunksOf bs (l.drop bs) := by
  rw [chunksOf]; simp [h]

theorem chunksOf_eq_of_length (bs : Nat) (l : List (List Val))
    (hl : l.length ≠ 0) (hbs : bs ≠ 0) :
    chunksOf bs l = l.take bs :: chunksOf bs (l.drop bs) := by
  refine chunksOf_eq bs l ?_
  intro hcon
  rw [List.take_eq_nil_iff] at hcon
  rcases hcon with h | h
  · exact hbs h
  · exact hl (by simp [h])

/-- Flattening the fetched batches recovers the stream: the loop
consumes the whole result stream, stopping exactly at the empty fetch. -/
theorem chunksOf_flatten (bs : Nat) (l : List (List Val)) (hbs : bs ≠ 0) :
    (chunksOf bs l).flatten = l := by
  rw [chunksOf]
  by_cases h : l.take bs = []
  · simp [h]
    rw [List.take_eq_nil_iff] at h
    rcases h with h | h
    · exact absurd h hbs
    · simp [h]
  · simp only [h, if_neg, ite_false, List.flatten_cons]
    rw [chunksOf_flatten bs (l.drop bs) hbs]
    exact List.take_append_drop bs l
termination_by l.length
decreasing_by
  rw [List.take_eq_nil_iff] at h
  push_neg at h
  rw [List.length_drop]
  exact Nat.sub_lt (List.length_pos.mpr h.2) (Nat.pos_of_ne_zero h.1)

/-- Every fetched batch is non-empty and holds at most `bs` rows. -/
theorem mem_chunksOf (bs : Nat) (l : List (List Val)) (b : List (List Val))
    (hb : b ∈ chunksOf bs l) : b ≠ [] ∧ b.length ≤ bs := by
  rw [chunksOf] at hb
  by_cases h : l.take bs = []
  · simp [h] at hb
  · simp only [h, if_neg, ite_false, List.mem_cons] at hb
    rcases hb with rfl | hb
    · refine ⟨h, ?_⟩
      rw [List.length_take]
      exact min_le_left _ _
    · exact mem_chunksOf bs (l.drop bs) b hb
termination_by l.length
decreasing_by
  rw [List.take_eq_nil_iff] at h
  push_neg at h
  rw [List.length_drop]
  exact Nat.sub_lt (List.length_pos.mpr h.2) (Nat.pos_of_ne_zero h.1)

/-- With no insert failure the loop commits exactly the fetched
batches, in order, and reports success. -/
theorem transferLoop_none (bs : Nat) (stream : List (List Val)) (idx : Nat) :
    transferLoop none bs stream idx = (chunksOf bs stream, true) := by
  rw [transferLoop, chunksOf]
  by_cases h : stream.take bs = []
  · simp [h]
  · simp only [h, if_neg, ite_false]
    simp only [transferLoop_none bs (stream.drop bs) (idx + 1)]
    simp
termination_by stream.length
decreasing_by
  rw [List.take_eq_nil_iff] at h
  push_neg at h
  rw [List.length_drop]
  exact Nat.sub_lt (List.length_pos.mpr h.2) (Nat.pos_of_ne_zero h.1)

/-- When `executemany` raises on the batch with absolute index `k`, the
loop started at index `idx ≤ k` commits exactly the fetched batches
strictly before the failing one and reports failure. -/
theorem transferLoop_failAt (bs : Nat) (stream : List (List Val)) (k idx : Nat)
    (hle : idx ≤ k) (hk : k - idx < (chunksOf bs stream).length) :
    transferLoop (some k) bs stream idx
      = ((chunksOf bs stream).take (k - idx), false) := by
  rw [transferLoop]
  by_cases h : stream.take bs = []
  · rw [chunksOf] at hk
    simp [h] at hk
  · rw [chunksOf_eq bs stream h] at hk ⊢
    simp only [List.length_cons] at hk
    by_cases hik : k = idx
    · subst hik
      rw [if_neg h]
      simp
    · have hlt : idx < k := lt_of_le_of_ne hle (fun he => hik he.symm)
      have hrec := transferLoop_failAt bs (stream.drop bs) k (idx + 1)
        hlt (by omega)
      simp only [h, if_neg, ite_false, Option.some.injEq, hik, hrec]
      have hki : k - idx = (k - (idx + 1)) + 1 := by omega
      rw [hki, List.take_succ_cons]
termination_by stream.length
decreasing_by
  rw [List.take_eq_nil_iff] at h
  push_neg at h
  rw [List.length_drop]
  exact Nat.sub_lt (List.length_pos.mpr h.2) (Nat.pos_of_ne_zero h.1)

/-- The Python exceptions that can cross `p_move_data_for_table`:
connection errors from `psycopg2.connect`, query errors raised by
`cursor.execute`, insert errors raised by `executemany`, and the
`AttributeError` raised by calling `close()` on a `None` handle. -/
inductive PyErr where
  | connErr : String → PyErr
  | queryErr : String → PyErr
  | insertErr : PyErr
  | attrErr : String → PyErr
deriving Repr, DecidableEq

/-- The environment of one `p_move_data_for_table` run: the two
catalogs, the data of `sourceSchema.table` and `targetSchema.table`,
and failure oracles for the connection attempts, the source
introspection query, and the per-batch insert. -/
structure World where
  sourceCatalog : List CatalogRow
  targetCatalog : List CatalogRow
  sourceRows : List Row
  targetRows : List Row
  sourceConnFails : Bool
  sourceIntrospectFails : Bool
  targetConnFails : Bool
  insertFailAt : Option Nat

/-- What the `try` block of `p_move_data_for_table` did before its
`except`/`finally` run: the in-flight result, which connections were
acquired, the column list baked into the INSERT template, the source
SELECT that was issued (if reached), the batches committed, and the
errors logged by inner components on their own way out. -/
structure TryResult where
  inner : Except PyErr Unit
  srcAcquired : Bool
  tgtAcquired : Bool
  insertCols : Option (List String)
  sourceQuery : Option SourceQuery
  committed : List (List (List Val))
  componentLog : List PyErr

/-- main.py lines 121-162, the `try` block of `p_move_data_for_table`:
connect to source, introspect source columns, connect to target,
introspect target columns, build the INSERT template from the SOURCE
columns (line 133), count target rows and build the source SELECT from
the TARGET columns (lines 137-152), then run the fetch/insert/commit
loop.  `p_connect_to_source`, `p_connect_to_target` and
`p_get_table_definition` each log before re-raising, which
`componentLog` records. -/
def tryBlock (w : World) (i_table_name i_source_schema : String) : TryResult :=
  if w.sourceConnFails then
    { inner := Except.error (PyErr.connErr "source connect failed"),
      srcAcquired := false, tgtAcquired := false, insertCols := none,
      sourceQuery := none, committed := [],
      componentLog := [PyErr.connErr "source connect failed"] }
  else if w.sourceIntrospectFails then
    { inner := Except.error (PyErr.queryErr "source introspection failed"),
      srcAcquired := true, tgtAcquired := false, insertCols := none,
      sourceQuery := none, committed := [],
      componentLog := [PyErr.queryErr "source introspection failed"] }
  else
    let l_source_columns :=
      (p_get_table_definition w.sourceCatalog i_table_name).map Prod.fst
    if w.targetConnFails then
      { inner := Except.error (PyErr.connErr "target connect failed"),
        srcAcquired := true, tgtAcquired := false, insertCols := none,
        sourceQuery := none, committed := [],
        componentLog := [PyErr.connErr "target connect failed"] }
    else
      let l_target_columns :=
        (p_get_table_definition w.targetCatalog i_table_name).map Prod.fst
      let q := buildSourceQuery w.targetRows l_target_columns
        i_source_schema i_table_name
      match runSourceQuery w.sourceRows q with
      | Except.error m =>
        { inner := Except.error (PyErr.queryErr m),
          srcAcquired := true, tgtAcquired := true,
          insertCols := some l_source_columns, sourceQuery := some q,
          committed := [], componentLog := [] }
      | Except.ok stream =>
        let r := transferLoop w.insertFailAt 1000 stream 0
        { inner := if r.2 then Except.ok () else Except.error PyErr.insertErr,
          srcAcquired := true, tgtAcquired := true,
          insertCols := some l_source_columns, sourceQuery := some q,
          committed := r.1, componentLog := [] }

/-- main.py lines 167-169, the `finally` block: it unconditionally
calls `l_connection_source.close()` then `l_connection_target.close()`.
A handle that was never acquired is still `None`, so `close()` on it
raises `AttributeError`, which replaces whatever was propagating and
skips the remaining close.  Returns the result seen by the caller and
whether each connection ended up closed. -/
def runFinally (r : Except PyErr Unit) (srcAcquired tgtAcquired : Bool) :
    Except PyErr Unit × Bool × Bool :=
  if srcAcquired then
    if tgtAcquired then (r, true, true)
    else (Except.error (PyErr.attrErr "NoneType has no attribute close"),
          true, false)
  else (Except.error (PyErr.attrErr "NoneType has no attribute close"),
        false, false)

/-- The observable outcome of one `p_move_data_for_table` call. -/
structure MoveOutcome where
  result : Except PyErr Unit
  logged : List PyErr
  srcAcquired : Bool
  tgtAcquired : Bool
  srcClosed : Bool
  tgtClosed : Bool
  insertCols : Option (List String)
  insertTarget : String × String
  sourceQuery : Option SourceQuery
  committed : List (List (List Val))
  insertedRows : List Row

/-- `p_move_data_for_table` (main.py lines 118-169): the `try` block,
then the `except` handler (log the error and bare `raise`), then the
`finally` block closing both handle variables.  `insertedRows` are the
committed tuples as stored by the INSERT template, i.e. each tuple
zipped against the template's column list (the source columns). -/
def p_move_data_for_table (w : World)
    (i_table_name i_source_schema i_target_schema : String) : MoveOutcome :=
  let t := tryBlock w i_table_name i_source_schema
  let logged := match t.inner with
    | Except.ok _ => t.componentLog
    | Except.error e => t.componentLog ++ [e]
  let fin := runFinally t.inner t.srcAcquired t.tgtAcquired
  { result := fin.1, logged := logged,
    srcAcquired := t.srcAcquired, tgtAcquired := t.tgtAcquired,
    srcClosed := fin.2.1, tgtClosed := fin.2.2,
    insertCols := t.insertCols,
    insertTarget := (i_target_schema, i_table_name),
    sourceQuery := t.sourceQuery,
    committed := t.committed,
    insertedRows := t.committed.flatten.map
      (fun tup => (t.insertCols.getD []).zip tup) }

/-- In a no-failure run the source SELECT that was issued is exactly
the one `buildSourceQuery` constructs from the target-side state. -/
theorem moveData_sourceQuery (w : World) (tbl s ts : String)
    (h1 : w.sourceConnFails = false) (h2 : w.sourceIntrospectFails = false)
    (h3 : w.targetConnFails = false) :
    (p_move_data_for_table w tbl s ts).sourceQuery
      = some (buildSourceQuery w.targetRows
          ((p_get_table_definition w.targetCatalog tbl).map Prod.fst) s tbl) := by
  simp only [p_move_data_for_table, tryBlock, h1, h2, h3, Bool.false_eq_true,
    if_false]
  split <;> rfl

/-- Closed form of a run that reaches the transfer loop: connections
succeed and the source SELECT evaluates to `stream`. -/
theorem moveData_ok_path (w : World) (tbl s ts : String)
    (h1 : w.sourceConnFails = false) (h2 : w.sourceIntrospectFails = false)
    (h3 : w.targetConnFails = false) (stream : List (List Val))
    (hq : runSourceQuery w.sourceRows (buildSourceQuery w.targetRows
      ((p_get_table_definition w.targetCatalog tbl).map Prod.fst) s tbl)
        = Except.ok stream) :
    p_move_data_for_table w tbl s ts =
      { result := if (transferLoop w.insertFailAt 1000 stream 0).2 then Except.ok ()
          else Except.error PyErr.insertErr,
        logged := if (transferLoop w.insertFailAt 1000 stream 0).2 then []
          else [PyErr.insertErr],
        srcAcquired := true, tgtAcquired := true,
        srcClosed := true, tgtClosed := true,
        insertCols := some ((p_get_table_definition w.sourceCatalog tbl).map Prod.fst),
        insertTarget := (ts, tbl),
        sourceQuery := some (buildSourceQuery w.targetRows
          ((p_get_table_definition w.targetCatalog tbl).map Prod.fst) s tbl),
        committed := (transferLoop w.insertFailAt 1000 stream 0).1,
        insertedRows := (transferLoop w.insertFailAt 1000 stream 0).1.flatten.map
          (fun tup =>
            ((p_get_table_definition w.sourceCatalog tbl).map Prod.fst).zip tup) } := by
  simp only [p_move_data_for_table, tryBlock, h1, h2, h3, Bool.false_eq_true,
    if_false]
  rw [hq]
  cases hb : (transferLoop w.insertFailAt 1000 stream 0).2 <;>
    simp [runFinally, hb]

/-- A 2500-row stream fetched 1000 at a time yields batches of
1000, 1000 and 500 rows. -/
theorem chunksOf_len_2500 (l : List (List Val)) (h : l.length = 2500) :
    (chunksOf 1000 l).map List.length = [1000, 1000, 500] := by
  rw [chunksOf_eq_of_length 1000 l (by omega) (by omega)]
  rw [chunksOf_eq_of_length 1000 (l.drop 1000)
    (by rw [List.length_drop]; omega) (by omega)]
  rw [chunksOf_eq_of_length 1000 ((l.drop 1000).drop 1000)
    (by rw [List.length_drop, List.length_drop]; omega) (by omega)]
  have hnil : (((l.drop 1000).drop 1000).drop 1000) = [] := by
    rw [← List.length_eq_zero]
    rw [List.length_drop, List.length_drop, List.length_drop]
    omega
  rw [hnil, chunksOf_nil]
  simp only [List.map_cons, List.map_nil, List.length_take, List.length_drop, h]
  norm_num

/-- C10: schema introspection filters the catalog by table name only,
with no schema qualifier: over a catalog that concatenates the entries
of several schemas, the returned column list is the concatenation of
the columns of every identically-named table, and every schema's entry
for the table contributes regardless of which schema the task targets. -/
theorem c10_introspection_spans_schemas :
    (∀ (cat1 cat2 : List CatalogRow) (t : String),
      p_get_table_definition (cat1 ++ cat2) t
        = p_get_table_definition cat1 t ++ p_get_table_definition cat2 t) ∧
    (∀ (cat : List CatalogRow) (t : String) (r : CatalogRow),
      r ∈ cat → r.table_name = t →
      (r.column_name, r.data_type) ∈ p_get_table_definition cat t) := by
  constructor
  · intro cat1 cat2 t
    simp [p_get_table_definition, List.filter_append]
  · intro cat t r hmem hname
    simp only [p_get_table_definition, List.mem_map]
    refine ⟨r, ?_, rfl⟩
    rw [List.mem_filter]
    exact ⟨hmem, by simp [hname]⟩

/-- Witness for C10 at a two-schema catalog: the column of the
identically-named table in the unrelated schema is returned too. -/
theorem c10_introspection_spans_schemas_witness :
    ("b", "text") ∈ p_get_table_definition
      [⟨"dwh", "products", "a", "integer"⟩, ⟨"other", "products", "b", "text"⟩]
      "products" :=
  c10_introspection_spans_schemas.2 _ "products"
    ⟨"other", "products", "b", "text"⟩ (by simp) rfl

/-- World of a no-failure delta run used to witness C1: the target
table is non-empty with watermark 4. -/
def c1World : World :=
  { sourceCatalog := [⟨"core", "products", "id", "integer"⟩,
      ⟨"core", "products", "updated_date", "timestamp"⟩],
    targetCatalog := [⟨"dwh", "products", "id", "integer"⟩,
      ⟨"dwh", "products", "updated_date", "timestamp"⟩],
    sourceRows := [[("id", some 1), ("updated_date", some 7)]],
    targetRows := [[("id", some 1), ("updated_date", some 4)]],
    sourceConnFails := false, sourceIntrospectFails := false,
    targetConnFails := false, insertFailAt := none }

/-- C1: in every run that reaches planning, the load decision is made
by counting rows in the target table: count 0 gives a FULL load whose
source SELECT has no predicate, and a non-zero count gives a DELTA load
whose source SELECT carries `updated_date > watermark` with the
watermark queried as `MAX(updated_date)` from the target table. -/
theorem c1_load_decision (w : World) (tbl s ts : String)
    (h1 : w.sourceConnFails = false) (h2 : w.sourceIntrospectFails = false)
    (h3 : w.targetConnFails = false) :
    ∃ q : SourceQuery,
      (p_move_data_for_table w tbl s ts).sourceQuery = some q ∧
      (w.targetRows.length = 0 → q.pred = LoadPred.noPred) ∧
      (w.targetRows.length ≠ 0 →
        q.pred = LoadPred.gtUpdatedDate (maxUpdatedDate w.targetRows)) := by
  refine ⟨buildSourceQuery w.targetRows
      ((p_get_table_definition w.targetCatalog tbl).map Prod.fst) s tbl,
    moveData_sourceQuery w tbl s ts h1 h2 h3, ?_, ?_⟩
  · intro hlen
    simp [buildSourceQuery, hlen]
  · intro hlen
    have hb : (w.targetRows.length == 0) = false := by
      simp [hlen]
    simp [buildSourceQuery, hb]

/-- Witness for C1 at a concrete non-empty target. -/
theorem c1_load_decision_witness :
    ∃ q : SourceQuery,
      (p_move_data_for_table c1World "products" "core" "dwh").sourceQuery = some q ∧
      (c1World.targetRows.length = 0 → q.pred = LoadPred.noPred) ∧
      (c1World.targetRows.length ≠ 0 →
        q.pred = LoadPred.gtUpdatedDate (maxUpdatedDate c1World.targetRows)) :=
  c1_load_decision c1World "products" "core" "dwh" rfl rfl rfl

/-- C5: the transfer loop fetches at most 1000 rows at a time, commits
each non-empty batch before the next fetch, stops exactly when a fetch
returns an empty batch (so the committed batches flatten back to the
whole stream), and a 2500-row stream yields exactly 3 commits of 1000,
1000 and 500 rows. -/
theorem c5_batch_commits (stream : List (List Val)) :
    (transferLoop none 1000 stream 0).2 = true ∧
    (transferLoop none 1000 stream 0).1.flatten = stream ∧
    (∀ b ∈ (transferLoop none 1000 stream 0).1, b ≠ [] ∧ b.length ≤ 1000) ∧
    (stream.length = 2500 →
      (transferLoop none 1000 stream 0).1.map List.length = [1000, 1000, 500]) := by
  rw [transferLoop_none]
  refine ⟨rfl, chunksOf_flatten 1000 stream (by omega), ?_, ?_⟩
  · intro b hb
    exact mem_chunksOf 1000 stream b hb
  · intro hlen
    exact chunksOf_len_2500 stream hlen

/-- Witness for C5: a concrete 2500-row stream commits in batches of
1000, 1000 and 500. -/
theorem c5_batch_commits_witness :
    (transferLoop none 1000 (List.replicate 2500 ([] : List Val)) 0).1.map
        List.length = [1000, 1000, 500] :=
  (c5_batch_commits (List.replicate 2500 ([] : List Val))).2.2.2
    (by rw [List.length_replicate])

/-- C6: when `executemany` raises on the batch with index `k`, the run
propagates the error to the caller and the target retains exactly the
batches committed before the failing one — later batches are never
inserted. -/
theorem c6_insert_failure_aborts (w : World) (tbl s ts : String)
    (h1 : w.sourceConnFails = false) (h2 : w.sourceIntrospectFails = false)
    (h3 : w.targetConnFails = false)
    (k : Nat) (h4 : w.insertFailAt = some k)
    (stream : List (List Val))
    (hq : runSourceQuery w.sourceRows (buildSourceQuery w.targetRows
      ((p_get_table_definition w.targetCatalog tbl).map Prod.fst) s tbl)
        = Except.ok stream)
    (hk : k < (chunksOf 1000 stream).length) :
    (p_move_data_for_table w tbl s ts).result = Except.error PyErr.insertErr ∧
    (p_move_data_for_table w tbl s ts).committed
      = (chunksOf 1000 stream).take k := by
  rw [moveData_ok_path w tbl s ts h1 h2 h3 stream hq]
  rw [h4, transferLoop_failAt 1000 stream k 0 (Nat.zero_le k) (by omega)]
  exact ⟨rfl, by simp⟩

/-- World used to witness C6: one source row and an insert that fails
on the first batch. -/
def c6World : World :=
  { sourceCatalog := [⟨"core", "products", "a", "integer"⟩],
    targetCatalog := [⟨"dwh", "products", "a", "integer"⟩],
    sourceRows := [[("a", some 1)]],
    targetRows := [],
    sourceConnFails := false, sourceIntrospectFails := false,
    targetConnFails := false, insertFailAt := some 0 }

/-- Witness for C6 at a concrete failing run. -/
theorem c6_insert_failure_aborts_witness :
    (p_move_data_for_table c6World "products" "core" "dwh").result
      = Except.error PyErr.insertErr ∧
    (p_move_data_for_table c6World "products" "core" "dwh").committed
      = (chunksOf 1000 [[(some 1 : Val)]]).take 0 :=
  c6_insert_failure_aborts c6World "products" "core" "dwh" rfl rfl rfl 0 rfl
    [[(some 1 : Val)]] rfl
    (by rw [chunksOf_eq 1000 _ (by decide)]; simp)

/-- C7: a delta run against a non-empty target with watermark `W`
transfers exactly the source rows with `updated_date > W` (rows at or
below the watermark are never re-inserted), and if no source row is
newer than `W` the run inserts zero rows. -/
theorem c7_delta_only_new_rows (w : World) (tbl s ts : String)
    (h1 : w.sourceConnFails = false) (h2 : w.sourceIntrospectFails = false)
    (h3 : w.targetConnFails = false) (h4 : w.insertFailAt = none)
    (h5 : w.targetRows ≠ []) (W : Int)
    (h6 : maxUpdatedDate w.targetRows = some W)
    (h7 : (p_get_table_definition w.targetCatalog tbl).map Prod.fst ≠ []) :
    (p_move_data_for_table w tbl s ts).committed.flatten
      = (w.sourceRows.filter (rowPasses W)).map
          (selectCols ((p_get_table_definition w.targetCatalog tbl).map Prod.fst)) ∧
    ((∀ r ∈ w.sourceRows, ∀ d : Int, Row.getCol r "updated_date" = some d → d ≤ W) →
      (p_move_data_for_table w tbl s ts).committed = []) := by
  have hlen : (w.targetRows.length == 0) = false := by
    simp [List.length_eq_zero, h5]
  have hbuild : buildSourceQuery w.targetRows
      ((p_get_table_definition w.targetCatalog tbl).map Prod.fst) s tbl
        = ⟨(p_get_table_definition w.targetCatalog tbl).map Prod.fst, s, tbl,
            LoadPred.gtUpdatedDate (some W)⟩ := by
    simp [buildSourceQuery, hlen, h6]
  have hq : runSourceQuery w.sourceRows (buildSourceQuery w.targetRows
      ((p_get_table_definition w.targetCatalog tbl).map Prod.fst) s tbl)
        = Except.ok ((w.sourceRows.filter (rowPasses W)).map
            (selectCols ((p_get_table_definition w.targetCatalog tbl).map Prod.fst))) := by
    rw [hbuild]
    simp [runSourceQuery, h7]
  rw [moveData_ok_path w tbl s ts h1 h2 h3 _ hq]
  rw [h4, transferLoop_none]
  constructor
  · exact chunksOf_flatten 1000 _ (by omega)
  · intro hall
    have hfil : w.sourceRows.filter (rowPasses W) = [] := by
      rw [List.filter_eq_nil_iff]
      intro r hr
      unfold rowPasses
      cases hcol : Row.getCol r "updated_date" with
      | none => simp
      | some d =>
        have := hall r hr d hcol
        simp
        omega
    simp only [hfil, List.map_nil, chunksOf_nil]

/-- World used to witness C7: watermark 4, one newer and one older
source row. -/
def c7World : World :=
  { sourceCatalog := [⟨"core", "products", "id", "integer"⟩,
      ⟨"core", "products", "updated_date", "timestamp"⟩],
    targetCatalog := [⟨"dwh", "products", "id", "integer"⟩,
      ⟨"dwh", "products", "updated_date", "timestamp"⟩],
    sourceRows := [[("id", some 1), ("updated_date", some 7)],
      [("id", some 2), ("updated_date", some 3)]],
    targetRows := [[("id", some 1), ("updated_date", some 4)]],
    sourceConnFails := false, sourceIntrospectFails := false,
    targetConnFails := false, insertFailAt := none }

/-- Witness for C7 at a concrete delta run. -/
theorem c7_delta_only_new_rows_witness :
    (p_move_data_for_table c7World "products" "core" "dwh").committed.flatten
      = (c7World.sourceRows.filter (rowPasses 4)).map
          (selectCols ((p_get_table_definition c7World.targetCatalog
            "products").map Prod.fst)) :=
  (c7_delta_only_new_rows c7World "products" "core" "dwh" rfl rfl rfl rfl
    (by simp [c7World]) 4 rfl (by simp [c7World, p_get_table_definition])).1

/-- World where source and target catalogs list the same two columns in
opposite orders; one source row with a = 1 and b = 2; empty target. -/
def orderSwapWorld : World :=
  { sourceCatalog := [⟨"core", "products", "a", "integer"⟩,
      ⟨"core", "products", "b", "integer"⟩],
    targetCatalog := [⟨"dwh", "products", "b", "integer"⟩,
      ⟨"dwh", "products", "a", "integer"⟩],
    sourceRows := [[("a", some 1), ("b", some 2)]],
    targetRows := [],
    sourceConnFails := false, sourceIntrospectFails := false,
    targetConnFails := false, insertFailAt := none }

/-- C2 (code bug): the INSERT template names the SOURCE columns
(main.py line 133) while the source SELECT projects the TARGET columns
(lines 143, 150), so when the two catalogs order the same columns
differently the positional mapping crosses values over: the source row
with a = 1, b = 2 is stored as a = 2, b = 1. -/
theorem c2_insert_columns_bug :
    (p_move_data_for_table orderSwapWorld "products" "core" "dwh").insertCols
      = some ["a", "b"] ∧
    (p_get_table_definition orderSwapWorld.targetCatalog "products").map Prod.fst
      = ["b", "a"] ∧
    (p_move_data_for_table orderSwapWorld "products" "core" "dwh").insertCols
      ≠ some ((p_get_table_definition orderSwapWorld.targetCatalog
          "products").map Prod.fst) ∧
    (p_move_data_for_table orderSwapWorld "products" "core" "dwh").insertedRows
      = [[("a", some 2), ("b", some 1)]] ∧
    Row.getCol [("a", (some 2 : Val)), ("b", some 1)] "a"
      ≠ Row.getCol [("a", (some 1 : Val)), ("b", some 2)] "a" := by
  have hq : runSourceQuery orderSwapWorld.sourceRows
      (buildSourceQuery orderSwapWorld.targetRows
        ((p_get_table_definition orderSwapWorld.targetCatalog
          "products").map Prod.fst) "core" "products")
      = Except.ok [[(some 2 : Val), some 1]] := rfl
  have hmove := moveData_ok_path orderSwapWorld "products" "core" "dwh"
    rfl rfl rfl _ hq
  have hloop : transferLoop orderSwapWorld.insertFailAt 1000
      [[(some 2 : Val), some 1]] 0 = ([[[(some 2 : Val), some 1]]], true) := by
    show transferLoop none 1000 _ 0 = _
    rw [transferLoop_none, chunksOf_eq 1000 _ (by decide)]
    simp [chunksOf_nil]
  rw [hloop] at hmove
  rw [hmove]
  exact ⟨rfl, rfl, by decide, rfl, by decide⟩

/-- World whose target table is non-empty but has only NULL
`updated_date` values: the watermark query returns NULL. -/
def nullWatermarkWorld : World :=
  { sourceCatalog := [⟨"core", "products", "id", "integer"⟩,
      ⟨"core", "products", "updated_date", "timestamp"⟩],
    targetCatalog := [⟨"dwh", "products", "id", "integer"⟩,
      ⟨"dwh", "products", "updated_date", "timestamp"⟩],
    sourceRows := [[("id", some 1), ("updated_date", some 5)]],
    targetRows := [[("id", some 9), ("updated_date", none)]],
    sourceConnFails := false, sourceIntrospectFails := false,
    targetConnFails := false, insertFailAt := none }

/-- C3 (code bug): with a non-empty target whose `updated_date` column
is entirely NULL, the run still takes the DELTA branch and emits the
source predicate `updated_date > watermark` with the null watermark
interpolated into it (main.py line 152) — there is no explicit
fallback such as a FULL load; the emitted literal is not a valid
timestamp and the query errors. -/
theorem c3_null_watermark_bug :
    nullWatermarkWorld.targetRows ≠ [] ∧
    maxUpdatedDate nullWatermarkWorld.targetRows = none ∧
    (p_move_data_for_table nullWatermarkWorld "products" "core" "dwh").sourceQuery
      = some ⟨["id", "updated_date"], "core", "products",
          LoadPred.gtUpdatedDate none⟩ ∧
    (p_move_data_for_table nullWatermarkWorld "products" "core" "dwh").result
      = Except.error (PyErr.queryErr "invalid input syntax for timestamp: None") :=
  ⟨by decide, rfl, rfl, rfl⟩

/-- World where the source connection attempt itself fails. -/
def srcConnFailWorld : World :=
  { sourceCatalog := [], targetCatalog := [], sourceRows := [],
    targetRows := [],
    sourceConnFails := true, sourceIntrospectFails := false,
    targetConnFails := false, insertFailAt := none }

/-- World where the target connection attempt fails after the source
connection was acquired. -/
def tgtConnFailWorld : World :=
  { sourceCatalog := [⟨"core", "products", "a", "integer"⟩],
    targetCatalog := [⟨"dwh", "products", "a", "integer"⟩],
    sourceRows := [], targetRows := [],
    sourceConnFails := false, sourceIntrospectFails := false,
    targetConnFails := true, insertFailAt := none }

/-- C4 (code bug): the single `finally` block calls `close()` on both
handle variables unconditionally, so when a connection attempt failed
the corresponding handle is still `None` and the release step raises
`AttributeError` on a never-acquired handle — on a source-connect
failure nothing was acquired yet the cleanup itself fails, and on a
target-connect failure the source is closed but the target release
step fails. -/
theorem c4_close_on_unacquired_bug :
    ((p_move_data_for_table srcConnFailWorld "products" "core" "dwh").srcAcquired
        = false ∧
      (p_move_data_for_table srcConnFailWorld "products" "core" "dwh").srcClosed
        = false ∧
      (p_move_data_for_table srcConnFailWorld "products" "core" "dwh").result
        = Except.error (PyErr.attrErr "NoneType has no attribute close")) ∧
    ((p_move_data_for_table tgtConnFailWorld "products" "core" "dwh").tgtAcquired
        = false ∧
      (p_move_data_for_table tgtConnFailWorld "products" "core" "dwh").srcClosed
        = true ∧
      (p_move_data_for_table tgtConnFailWorld "products" "core" "dwh").tgtClosed
        = false ∧
      (p_move_data_for_table tgtConnFailWorld "products" "core" "dwh").result
        = Except.error (PyErr.attrErr "NoneType has no attribute close")) :=
  ⟨⟨rfl, rfl, rfl⟩, ⟨rfl, rfl, rfl, rfl⟩⟩

/-- World where both catalogs lack the requested table, so both
introspection calls return the empty column list. -/
def missingTableWorld : World :=
  { sourceCatalog := [⟨"core", "orders", "x", "integer"⟩],
    targetCatalog := [⟨"dwh", "orders", "x", "integer"⟩],
    sourceRows := [[("a", some 1)]], targetRows := [],
    sourceConnFails := false, sourceIntrospectFails := false,
    targetConnFails := false, insertFailAt := none }

/-- C8 (code bug): introspection does return the empty column sequence
for a missing table, but `p_move_data_for_table` never checks for it:
it builds the INSERT template over zero columns and goes on to issue
the source SELECT with an empty projection, instead of raising a
definition error before the transfer. -/
theorem c8_empty_definition_bug :
    p_get_table_definition missingTableWorld.sourceCatalog "products" = [] ∧
    p_get_table_definition missingTableWorld.targetCatalog "products" = [] ∧
    (p_move_data_for_table missingTableWorld "products" "core" "dwh").insertCols
      = some [] ∧
    (p_move_data_for_table missingTableWorld "products" "core" "dwh").sourceQuery
      = some ⟨[], "core", "products", LoadPred.noPred⟩ ∧
    (p_move_data_for_table missingTableWorld "products" "core" "dwh").result
      = Except.error (PyErr.queryErr "syntax error: empty select list") :=
  ⟨rfl, rfl, rfl, rfl, rfl⟩

/-- World for C9: the source connection fails, exercising the logging
and propagation chain. -/
def c9World : World :=
  { sourceCatalog := [], targetCatalog := [], sourceRows := [],
    targetRows := [],
    sourceConnFails := true, sourceIntrospectFails := false,
    targetConnFails := false, insertFailAt := none }

/-- C9 (code bug): the connection error is logged (by the component and
again by the orchestrator) and re-raised, but on this path the
`finally` block's `close()` on the `None` handle raises
`AttributeError`, which replaces the original exception — the caller
receives a different error than the one logged and re-raised, so the
error is not propagated upward unchanged. -/
theorem c9_error_not_propagated_bug :
    (p_move_data_for_table c9World "products" "core" "dwh").logged
      = [PyErr.connErr "source connect failed",
          PyErr.connErr "source connect failed"] ∧
    (p_move_data_for_table c9World "products" "core" "dwh").result
      = Except.error (PyErr.attrErr "NoneType has no attribute close") ∧
    PyErr.attrErr "NoneType has no attribute close"
      ≠ PyErr.connErr "source connect failed" :=
  ⟨rfl, rfl, by decide⟩

end PyETL
